import Mathlib

/-! Shallow embedding of `src/store/redis.go` (package `store`): a Redis-backed
store for a GCRA rate limiter, with a clock-synchronized read, a conditional
create, and a dual-path compare-and-swap that degrades from a scripted path to
an optimistic-lock path when the backend does not support EVAL.

The redigo client and the Redis backend are modelled by an explicit database
state (`RedisDB`), a trace of the commands the store sends (`List RCmd`), and a
fault oracle (`Faults`) giving, for each point where the Go code reads a reply
from the connection, the error that read returns, mirroring exactly the points
where the source checks errors. -/

/-- Error values surfaced by the redigo client layer: the distinguished
nil-reply error `redis.ErrNil` and generic errors carrying a message string. -/
inductive RErr where
  | errNil
  | msg (s : String)
deriving DecidableEq

/-- `err.Error()`: the message text of a client error (`redis.ErrNil` prints as
"redigo: nil returned"). -/
def errText : RErr → String
  | RErr.errNil => "redigo: nil returned"
  | RErr.msg s => s

/-- The commands the store sends to the backend, recorded as a trace.
`closeConn` records `conn.Close()`. -/
inductive RCmd where
  | select (db : Int)
  | closeConn
  | time
  | get (key : String)
  | setnx (key : String) (v : Int)
  | expire (key : String) (secs : Int)
  | eval (key : String) (old new secs : Int)
  | watch (key : String)
  | multi
  | setex (key : String) (secs : Int) (v : Int)
  | set (key : String) (v : Int)
  | exec
deriving DecidableEq

/-- Backend database state: the integer value per key, the whole-second TTL
metadata recorded by the last SETEX/EXPIRE (cleared by a plain SET), and the
backend clock as returned by the TIME command, split into the two fields the
Go code scans into its variables `s` and `ms` (redis.go:72-76). -/
structure RedisDB where
  data : String → Option Int
  expiry : String → Option Int
  timeSec : Int
  timeMs : Int

/-- The store handle (`redisStore`, redis.go:30-35). The connection pool is an
opaque identifier here (the runtime behaviour of pooled connections is the
`Faults` oracle); `keyPrefix` stands for the source field named after the Lean
keyword for prefix notation, `db` is the database index and `supportsEval` the
capability flag. -/
structure redisStore where
  pool : Nat
  keyPrefix : String
  db : Int
  supportsEval : Bool

/-- `NewRedisStore` (redis.go:42-49): builds the handle with the capability
flag initially true. -/
def NewRedisStore (pool : Nat) (keyPrefix : String) (db : Int) : redisStore :=
  ⟨pool, keyPrefix, db, true⟩

/-- Fault oracle for one operation: for each point where the Go code reads a
reply from the connection, optionally the error message that read returns
(transport or protocol failure). `execRace` makes EXEC return the nil reply
signalling that the watched key changed concurrently. -/
structure Faults where
  selectErr : Option String
  timeValuesErr : Option String
  timeScanErr : Option String
  getErr : Option String
  setnxErr : Option String
  expireErr : Option String
  evalErr : Option String
  watchGetErr : Option String
  execErr : Option String
  execRace : Bool

/-- The fault-free oracle: every backend interaction succeeds. -/
def noFaults : Faults := ⟨none, none, none, none, none, none, none, none, none, false⟩

/-- Occurrence of `pat` as a contiguous sublist of the second argument. -/
def listHasSub (pat : List Char) : List Char → Bool
  | [] => pat.isEmpty
  | c :: rest => pat.isPrefixOf (c :: rest) || listHasSub pat rest

/-- `strings.Contains s pat`. -/
def strContains (s pat : String) : Bool := listHasSub pat.toList s.toList

/-- `int(ttl.Seconds())` for a duration of `ttl` nanoseconds: the second count
truncated toward zero (exact for every duration whose second count is within
the float64 mantissa range, i.e. all realistic TTLs). -/
def seconds (ttl : Int) : Int := Int.tdiv ttl 1000000000

/-- Backend SET: store the value and drop any TTL. -/
def setState (st : RedisDB) (key : String) (v : Int) : RedisDB :=
  ⟨fun k => if k = key then some v else st.data k,
   fun k => if k = key then none else st.expiry k, st.timeSec, st.timeMs⟩

/-- Backend SETEX: store the value together with the given whole-second TTL. -/
def setexState (st : RedisDB) (key : String) (secs v : Int) : RedisDB :=
  ⟨fun k => if k = key then some v else st.data k,
   fun k => if k = key then some secs else st.expiry k, st.timeSec, st.timeMs⟩

/-- Backend SETNX on a missing key: create the value, with no TTL. -/
def setnxState (st : RedisDB) (key : String) (v : Int) : RedisDB :=
  ⟨fun k => if k = key then some v else st.data k,
   fun k => if k = key then none else st.expiry k, st.timeSec, st.timeMs⟩

/-- Backend EXPIRE: record the TTL when the key exists, otherwise no change. -/
def expireState (st : RedisDB) (key : String) (secs : Int) : RedisDB :=
  match st.data key with
  | none => st
  | some _ =>
    ⟨st.data, fun k => if k = key then some secs else st.expiry k, st.timeSec, st.timeMs⟩

/-- `redisCASMissingKey` (redis.go:11): the error text the CAS script replies
for a missing key. -/
def redisCASMissingKey : String := "key does not exist"

/-- `getConn` (redis.go:193-205): take a pooled connection and, when `db > 0`,
issue SELECT; when SELECT fails the connection is closed and the error is
returned. Result: the error, and the trace of commands issued. -/
def getConn (r : redisStore) (f : Faults) : Option RErr × List RCmd :=
  if r.db > 0 then
    match f.selectErr with
    | some e => (some (RErr.msg e), [RCmd.select r.db, RCmd.closeConn])
    | none => (none, [RCmd.select r.db])
  else (none, [])

/-- `GetWithTime` (redis.go:53-86): in one batched round trip issue TIME and
GET; read the TIME reply (scanned into seconds and a second field that the
code multiplies by `time.Millisecond`, so the observed instant is
`s*1e9 + ms*1e6` nanoseconds), then read the GET reply, mapping the nil reply
to the sentinel value `-1`. Result: `(value, observed time in nanoseconds,
error)`, the final database state, and the command trace. -/
def GetWithTime (r : redisStore) (key : String) (f : Faults) (st : RedisDB) :
    (Int × Int × Option RErr) × RedisDB × List RCmd :=
  let key := r.keyPrefix ++ key
  match (getConn r f).1 with
  | some e => ((0, 0, some e), st, (getConn r f).2)
  | none =>
    let tr := (getConn r f).2 ++ [RCmd.time, RCmd.get key]
    match f.timeValuesErr with
    | some e => ((0, 0, some (RErr.msg e)), st, tr ++ [RCmd.closeConn])
    | none =>
      match f.timeScanErr with
      | some e => ((0, 0, some (RErr.msg e)), st, tr ++ [RCmd.closeConn])
      | none =>
        let now := st.timeSec * 1000000000 + st.timeMs * 1000000
        match f.getErr with
        | some e => ((0, now, some (RErr.msg e)), st, tr ++ [RCmd.closeConn])
        | none =>
          match st.data key with
          | none => ((-1, now, none), st, tr ++ [RCmd.closeConn])
          | some v => ((v, now, none), st, tr ++ [RCmd.closeConn])

/-- `SetIfNotExists` (redis.go:90-113): SETNX, then, when `ttl` is at least one
second, EXPIRE with `int(ttl.Seconds())` regardless of whether this call
created the key; an EXPIRE error is returned together with the SETNX
outcome (`return updated, err`). -/
def SetIfNotExists (r : redisStore) (key : String) (value ttl : Int) (f : Faults)
    (st : RedisDB) : (Bool × Option RErr) × RedisDB × List RCmd :=
  let key := r.keyPrefix ++ key
  match (getConn r f).1 with
  | some e => ((false, some e), st, (getConn r f).2)
  | none =>
    let tr := (getConn r f).2 ++ [RCmd.setnx key value]
    match f.setnxErr with
    | some e => ((false, some (RErr.msg e)), st, tr ++ [RCmd.closeConn])
    | none =>
      let v : Int := match st.data key with
        | some _ => 0
        | none => 1
      let st1 := match st.data key with
        | some _ => st
        | none => setnxState st key value
      let updated := v == 1
      if 1000000000 ≤ ttl then
        let tr2 := tr ++ [RCmd.expire key (seconds ttl)]
        match f.expireErr with
        | some e => ((updated, some (RErr.msg e)), st1, tr2 ++ [RCmd.closeConn])
        | none => ((updated, none), expireState st1 key (seconds ttl), tr2 ++ [RCmd.closeConn])
      else ((updated, none), st1, tr ++ [RCmd.closeConn])

/-- `redisCASScript` (redis.go:12-26), executed atomically by EVAL: GET the
key; a missing key replies the error `redisCASMissingKey`; a value different
from ARGV[1] replies 0; otherwise SETEX (when the whole-second TTL argument
differs from "0") or plain SET, replying 1. -/
def evalCAS (key : String) (old new secs : Int) (st : RedisDB) :
    Except String Bool × RedisDB :=
  match st.data key with
  | none => (Except.error redisCASMissingKey, st)
  | some v =>
    if v ≠ old then (Except.ok false, st)
    else if secs ≠ 0 then (Except.ok true, setexState st key secs new)
    else (Except.ok true, setState st key new)

/-- `compareAndSwapWithEval` (redis.go:179-190): run the CAS script via EVAL;
an error whose text contains `redisCASMissingKey` becomes `(false, nil)`, any
other error is returned. -/
def compareAndSwapWithEval (_r : redisStore) (key : String) (old new ttl : Int)
    (f : Faults) (st : RedisDB) : (Bool × Option RErr) × RedisDB × List RCmd :=
  let secs := seconds ttl
  let tr := [RCmd.eval key old new secs]
  let rep : Except String Bool × RedisDB :=
    match f.evalErr with
    | some e => (Except.error e, st)
    | none => evalCAS key old new secs st
  let res : (Bool × Option RErr) × RedisDB :=
    match rep.1 with
    | Except.error e =>
      if strContains e redisCASMissingKey then ((false, none), rep.2)
      else ((false, some (RErr.msg e)), rep.2)
    | Except.ok swapped => ((swapped, none), rep.2)
  (res.1, res.2, tr)

/-- The pair `v, err := redis.Int64(conn.Receive())` for the GET reply of the
watch batch (redis.go:156): an injected read error yields `(0, err)`, a
missing key yields the nil-reply error, otherwise the stored value. -/
def watchRead (f : Faults) (st : RedisDB) (key : String) : Int × Option RErr :=
  match f.watchGetErr with
  | some e => (0, some (RErr.msg e))
  | none =>
    match st.data key with
    | none => (0, some RErr.errNil)
    | some v => (v, none)

/-- `compareAndSwapWithWatch` (redis.go:150-177): WATCH and GET in one batch
(the WATCH reply is read and discarded without an error check); `redis.Int64`
of the GET reply yields `(0, err)` on any error and the code only tests
`err == redis.ErrNil`, so on a non-nil read error `v` stays 0 and execution
continues with the value comparison; then MULTI + (SETEX when `ttl > 0`, else
SET) + EXEC, where a nil EXEC reply (the watched key changed) yields
`(false, nil)` and an EXEC error is returned. -/
def compareAndSwapWithWatch (_r : redisStore) (key : String) (old new ttl : Int)
    (f : Faults) (st : RedisDB) : (Bool × Option RErr) × RedisDB × List RCmd :=
  let tr := [RCmd.watch key, RCmd.get key]
  let vErr : Int × Option RErr := watchRead f st key
  if vErr.2 = some RErr.errNil then ((false, none), st, tr)
  else if vErr.1 ≠ old then ((false, none), st, tr)
  else
    let wr := if ttl > 0 then RCmd.setex key (seconds ttl) new else RCmd.set key new
    let tr2 := tr ++ [RCmd.multi, wr, RCmd.exec]
    match f.execErr with
    | some e => ((false, some (RErr.msg e)), st, tr2)
    | none =>
      if f.execRace then ((false, none), st, tr2)
      else
        let st2 := if ttl > 0 then setexState st key (seconds ttl) new else setState st key new
        ((true, none), st2, tr2)

/-- The orchestrator's handling of the watch-path result (redis.go:142-147):
an error maps to `(false, err)`, otherwise the swapped flag is returned. -/
def watchOutcome (p : Bool × Option RErr) : Bool × Option RErr :=
  match p.2 with
  | some e => (false, some e)
  | none => (p.1, none)

/-- `CompareAndSwap` (redis.go:119-148): prefix the key and get a connection;
when the capability flag is set try the scripted path, returning its result
unless it fails, in which case an error containing "unknown command" clears
the flag and falls through to the watch path while any other error is
returned; with the flag clear, run the watch path. Result: `(swapped, error)`,
the updated handle, the final database state, and the command trace. -/
def CompareAndSwap (r : redisStore) (key : String) (old new ttl : Int) (f : Faults)
    (st : RedisDB) : (Bool × Option RErr) × redisStore × RedisDB × List RCmd :=
  let key := r.keyPrefix ++ key
  match (getConn r f).1 with
  | some e => ((false, some e), r, st, (getConn r f).2)
  | none =>
    let tr0 := (getConn r f).2
    if r.supportsEval then
      let er := compareAndSwapWithEval r key old new ttl f st
      match er.1.2 with
      | none => ((er.1.1, none), r, er.2.1, tr0 ++ er.2.2 ++ [RCmd.closeConn])
      | some e =>
        if strContains (errText e) "unknown command" then
          let r2 : redisStore := ⟨r.pool, r.keyPrefix, r.db, false⟩
          let wr := compareAndSwapWithWatch r2 key old new ttl f er.2.1
          (watchOutcome wr.1, r2, wr.2.1, tr0 ++ er.2.2 ++ wr.2.2 ++ [RCmd.closeConn])
        else ((false, some e), r, er.2.1, tr0 ++ er.2.2 ++ [RCmd.closeConn])
    else
      let wr := compareAndSwapWithWatch r key old new ttl f st
      (watchOutcome wr.1, r, wr.2.1, tr0 ++ wr.2.2 ++ [RCmd.closeConn])

/-- The whole-second TTL argument carried by a command, when it carries one. -/
def ttlArg : RCmd → Option Int
  | RCmd.expire _ s => some s
  | RCmd.eval _ _ _ s => some s
  | RCmd.setex _ s _ => some s
  | _ => none

/-- Whether a command is an EVAL (scripted-path) invocation. -/
def isEvalCmd : RCmd → Bool
  | RCmd.eval _ _ _ _ => true
  | _ => false

/-- A handle with prefix "p", the default database, capability flag set. -/
def rT : redisStore := ⟨0, "p", 0, true⟩

/-- The same handle with the capability flag clear. -/
def rF : redisStore := ⟨0, "p", 0, false⟩

/-- A handle on database index 1. -/
def rDb1 : redisStore := ⟨0, "p", 1, true⟩

/-- An empty backend whose clock reads (100 s, 250). -/
def st0 : RedisDB := ⟨fun _ => none, fun _ => none, 100, 250⟩

/-- A backend holding the single key "pk" with value 5. -/
def st5 : RedisDB := ⟨fun k => if k = "pk" then some 5 else none, fun _ => none, 100, 250⟩

/-- A backend holding the single key "k" with value 5. -/
def stK : RedisDB := ⟨fun k => if k = "k" then some 5 else none, fun _ => none, 100, 250⟩

/-- Faults: the EVAL reply is an unrecognized-command error. -/
def fUC : Faults := ⟨none, none, none, none, none, none, some "ERR unknown command", none, none, false⟩

/-- Faults: the EVAL reply is a transport error. -/
def fEvalIO : Faults := ⟨none, none, none, none, none, none, some "i/o timeout", none, none, false⟩

/-- Faults: the GET read of the watch path fails with a transport error. -/
def fWG : Faults := ⟨none, none, none, none, none, none, none, some "i/o timeout", none, false⟩

/-- Faults: the EXPIRE step fails. -/
def fExp : Faults := ⟨none, none, none, none, none, some "expire failed", none, none, none, false⟩

/-- Faults: SELECT fails during connection acquisition. -/
def fSel : Faults := ⟨some "connection refused", none, none, none, none, none, none, none, none, false⟩

/-! Helper lemmas. -/

/-- Field values of the fault-free oracle. -/
theorem noFaults_selectErr : noFaults.selectErr = none := rfl

/-- Field values of the fault-free oracle. -/
theorem noFaults_timeValuesErr : noFaults.timeValuesErr = none := rfl

/-- Field values of the fault-free oracle. -/
theorem noFaults_timeScanErr : noFaults.timeScanErr = none := rfl

/-- Field values of the fault-free oracle. -/
theorem noFaults_getErr : noFaults.getErr = none := rfl

/-- Field values of the fault-free oracle. -/
theorem noFaults_setnxErr : noFaults.setnxErr = none := rfl

/-- Field values of the fault-free oracle. -/
theorem noFaults_expireErr : noFaults.expireErr = none := rfl

/-- Field values of the fault-free oracle. -/
theorem noFaults_evalErr : noFaults.evalErr = none := rfl

/-- Field values of the fault-free oracle. -/
theorem noFaults_watchGetErr : noFaults.watchGetErr = none := rfl

/-- Field values of the fault-free oracle. -/
theorem noFaults_execErr : noFaults.execErr = none := rfl

/-- Field values of the fault-free oracle. -/
theorem noFaults_execRace : noFaults.execRace = false := rfl

/-- Connection acquisition never fails under the fault-free oracle. -/
theorem getConn_err_noFaults (r : redisStore) : (getConn r noFaults).1 = none := by
  unfold getConn noFaults
  split <;> rfl

/-- Connection acquisition succeeds when the SELECT step does not fail. -/
theorem getConn_err_none (r : redisStore) (f : Faults) (h : f.selectErr = none) :
    (getConn r f).1 = none := by
  unfold getConn
  rw [h]
  split <;> rfl

/-- The missing-key error text contains itself. -/
theorem missingKey_contains_self : strContains redisCASMissingKey redisCASMissingKey = true := by
  decide

/-- A duration of at least one second truncates to a nonzero second count. -/
theorem seconds_ne_zero_of_ge (ttl : Int) (h : 1000000000 ≤ ttl) : seconds ttl ≠ 0 := by
  unfold seconds
  rw [Int.tdiv_eq_ediv (by omega) (by norm_num)]
  omega

/-- A nonpositive duration above minus one second truncates to zero seconds. -/
theorem seconds_eq_zero_of_small (ttl : Int) (h1 : -1000000000 < ttl) (h2 : ttl ≤ 0) :
    seconds ttl = 0 := by
  unfold seconds
  have hn : ttl = -(-ttl) := by omega
  rw [hn, Int.neg_tdiv, Int.tdiv_eq_ediv (by omega) (by norm_num)]
  omega

/-! Claim theorems. -/

/-- Claim C6: for every key absent from the store, `GetWithTime` returns the
sentinel value `-1`, the observed backend time (the instant computed from the
TIME reply), and no error. -/
theorem getWithTime_missing_sentinel (r : redisStore) (key : String) (st : RedisDB)
    (h : st.data (r.keyPrefix ++ key) = none) :
    (GetWithTime r key noFaults st).1 =
      (-1, st.timeSec * 1000000000 + st.timeMs * 1000000, none) := by
  simp [GetWithTime, getConn_err_noFaults, noFaults_selectErr, noFaults_timeValuesErr, noFaults_timeScanErr, noFaults_getErr, noFaults_setnxErr, noFaults_expireErr, noFaults_evalErr, noFaults_watchGetErr, noFaults_execErr, noFaults_execRace, h]

/-- Witness for C6 at a concrete handle and empty backend. -/
theorem getWithTime_missing_sentinel_witness :
    (GetWithTime rT "k" noFaults st0).1 =
      (-1, st0.timeSec * 1000000000 + st0.timeMs * 1000000, none) :=
  getWithTime_missing_sentinel rT "k" st0 (by decide)

/-- Claim C2: when the key is missing or holds a value different from `old`,
`CompareAndSwap` under a fault-free backend returns `(false, nil)` — a declined
swap, never an error — whichever CAS path the capability flag selects. -/
theorem cas_declined_is_not_error (r : redisStore) (key : String) (old new ttl : Int)
    (st : RedisDB) (h : ∀ v, st.data (r.keyPrefix ++ key) = some v → v ≠ old) :
    (CompareAndSwap r key old new ttl noFaults st).1 = (false, none) := by
  cases hd : st.data (r.keyPrefix ++ key) with
  | none =>
    cases hb : r.supportsEval <;>
      simp [CompareAndSwap, compareAndSwapWithEval, compareAndSwapWithWatch, watchRead, evalCAS,
        watchOutcome, getConn_err_noFaults, noFaults_selectErr, noFaults_timeValuesErr, noFaults_timeScanErr, noFaults_getErr, noFaults_setnxErr, noFaults_expireErr, noFaults_evalErr, noFaults_watchGetErr, noFaults_execErr, noFaults_execRace, hd, hb, missingKey_contains_self]
  | some v =>
    have hv := h v hd
    cases hb : r.supportsEval <;>
      simp [CompareAndSwap, compareAndSwapWithEval, compareAndSwapWithWatch, watchRead, evalCAS,
        watchOutcome, getConn_err_noFaults, noFaults_selectErr, noFaults_timeValuesErr, noFaults_timeScanErr, noFaults_getErr, noFaults_setnxErr, noFaults_expireErr, noFaults_evalErr, noFaults_watchGetErr, noFaults_execErr, noFaults_execRace, hd, hb, hv]

/-- Witness for C2: a missing key on the scripted path, a missing key on the
optimistic-lock path, and a mismatched value. -/
theorem cas_declined_is_not_error_witness :
    (CompareAndSwap rT "k" 5 9 0 noFaults st0).1 = (false, none) ∧
    (CompareAndSwap rF "k" 5 9 0 noFaults st0).1 = (false, none) ∧
    (CompareAndSwap rT "k" 7 9 0 noFaults st5).1 = (false, none) :=
  ⟨cas_declined_is_not_error rT "k" 5 9 0 st0 (fun v hv => by simp [st0] at hv),
   cas_declined_is_not_error rF "k" 5 9 0 st0 (fun v hv => by simp [st0] at hv),
   cas_declined_is_not_error rT "k" 7 9 0 st5 (fun v hv => by
     simp [st5] at hv
     omega)⟩

/-- Claim C1: under a fault-free backend, `CompareAndSwap` returns
`swapped = true` exactly when the stored value immediately before the call
equals `old`, and after a successful swap `GetWithTime` on the resulting state
returns `new`. -/
theorem cas_swapped_iff_value_matches (r : redisStore) (key : String) (old new ttl : Int)
    (st : RedisDB) :
    ((CompareAndSwap r key old new ttl noFaults st).1.1 = true ↔
       st.data (r.keyPrefix ++ key) = some old) ∧
    ((CompareAndSwap r key old new ttl noFaults st).1.1 = true →
       (GetWithTime (CompareAndSwap r key old new ttl noFaults st).2.1 key noFaults
          (CompareAndSwap r key old new ttl noFaults st).2.2.1).1.1 = new) := by
  cases hd : st.data (r.keyPrefix ++ key) with
  | none =>
    cases hb : r.supportsEval <;>
      simp [CompareAndSwap, compareAndSwapWithEval, compareAndSwapWithWatch, watchRead, evalCAS,
        watchOutcome, getConn_err_noFaults, noFaults_selectErr, noFaults_timeValuesErr, noFaults_timeScanErr, noFaults_getErr, noFaults_setnxErr, noFaults_expireErr, noFaults_evalErr, noFaults_watchGetErr, noFaults_execErr, noFaults_execRace, hd, hb, missingKey_contains_self]
  | some v =>
    by_cases hv : v = old
    · subst hv
      cases hb : r.supportsEval
      · by_cases ht : ttl > 0 <;>
          simp [CompareAndSwap, compareAndSwapWithWatch, watchRead, watchOutcome, GetWithTime,
            setexState, setState, getConn_err_noFaults, noFaults_selectErr, noFaults_timeValuesErr, noFaults_timeScanErr, noFaults_getErr, noFaults_setnxErr, noFaults_expireErr, noFaults_evalErr, noFaults_watchGetErr, noFaults_execErr, noFaults_execRace, hd, hb, ht]
      · by_cases hs : seconds ttl = 0 <;>
          simp [CompareAndSwap, compareAndSwapWithEval, evalCAS, GetWithTime,
            setexState, setState, getConn_err_noFaults, noFaults_selectErr, noFaults_timeValuesErr, noFaults_timeScanErr, noFaults_getErr, noFaults_setnxErr, noFaults_expireErr, noFaults_evalErr, noFaults_watchGetErr, noFaults_execErr, noFaults_execRace, hd, hb, hs]
    · cases hb : r.supportsEval <;>
        simp [CompareAndSwap, compareAndSwapWithEval, compareAndSwapWithWatch, watchRead, evalCAS,
          watchOutcome, getConn_err_noFaults, noFaults_selectErr, noFaults_timeValuesErr, noFaults_timeScanErr, noFaults_getErr, noFaults_setnxErr, noFaults_expireErr, noFaults_evalErr, noFaults_watchGetErr, noFaults_execErr, noFaults_execRace, hd, hb, hv]

/-- Witness for C1 at a concrete store holding 5: the swap succeeds and the
subsequent read returns the new value. -/
theorem cas_swapped_iff_value_matches_witness :
    (CompareAndSwap rT "k" 5 9 0 noFaults st5).1.1 = true ∧
    (GetWithTime (CompareAndSwap rT "k" 5 9 0 noFaults st5).2.1 "k" noFaults
       (CompareAndSwap rT "k" 5 9 0 noFaults st5).2.2.1).1.1 = 9 := by
  have h := cas_swapped_iff_value_matches rT "k" 5 9 0 st5
  have h1 : (CompareAndSwap rT "k" 5 9 0 noFaults st5).1.1 = true :=
    h.1.mpr (by decide)
  exact ⟨h1, h.2 h1⟩

/-- Claim C5 (amended): under a fault-free backend the scripted and the
optimistic-lock CAS paths produce the same `(swapped, error)` result and the
same final database state, provided the TTL is at least one second or lies in
the interval (-1s, 0]. -/
theorem cas_paths_agree (r : redisStore) (key : String) (old new ttl : Int) (st : RedisDB)
    (h : 1000000000 ≤ ttl ∨ (-1000000000 < ttl ∧ ttl ≤ 0)) :
    (compareAndSwapWithEval r key old new ttl noFaults st).1 =
      (compareAndSwapWithWatch r key old new ttl noFaults st).1 ∧
    (compareAndSwapWithEval r key old new ttl noFaults st).2.1 =
      (compareAndSwapWithWatch r key old new ttl noFaults st).2.1 := by
  have hs : (seconds ttl ≠ 0 ∧ 0 < ttl) ∨ (seconds ttl = 0 ∧ ¬ 0 < ttl) := by
    rcases h with h | ⟨h1, h2⟩
    · exact Or.inl ⟨seconds_ne_zero_of_ge ttl h, by omega⟩
    · exact Or.inr ⟨seconds_eq_zero_of_small ttl h1 h2, by omega⟩
  cases hd : st.data key with
  | none =>
    simp [compareAndSwapWithEval, compareAndSwapWithWatch, watchRead, evalCAS,
      noFaults_evalErr, noFaults_watchGetErr, hd, missingKey_contains_self]
  | some v =>
    by_cases hv : v = old
    · subst hv
      rcases hs with ⟨hs1, hs2⟩ | ⟨hs1, hs2⟩ <;>
        simp [compareAndSwapWithEval, compareAndSwapWithWatch, watchRead, evalCAS,
          noFaults_evalErr, noFaults_watchGetErr, noFaults_execErr, noFaults_execRace,
          hd, hs1, hs2]
    · simp [compareAndSwapWithEval, compareAndSwapWithWatch, watchRead, evalCAS,
        noFaults_evalErr, noFaults_watchGetErr, hd, hv]

/-- Counterexample to claim C5 as stated: at `ttl = 0.5s` both paths report a
successful swap on the same state, but the scripted path stores the value with
no TTL while the optimistic-lock path issues a zero-second SETEX, so the
resulting TTLs differ. -/
theorem cas_paths_divergence :
    (compareAndSwapWithEval rT "k" 5 9 500000000 noFaults stK).1 = (true, none) ∧
    (compareAndSwapWithWatch rT "k" 5 9 500000000 noFaults stK).1 = (true, none) ∧
    (compareAndSwapWithEval rT "k" 5 9 500000000 noFaults stK).2.1.expiry "k" ≠
      (compareAndSwapWithWatch rT "k" 5 9 500000000 noFaults stK).2.1.expiry "k" :=
  ⟨by decide, by decide, by decide⟩

/-- Witness for the amended C5 at `ttl = 2s`. -/
theorem cas_paths_agree_witness :
    ((1000000000:Int) ≤ 2000000000 ∨
      ((-1000000000:Int) < 2000000000 ∧ (2000000000:Int) ≤ 0)) ∧
    ((compareAndSwapWithEval rT "k" 5 9 2000000000 noFaults stK).1 =
       (compareAndSwapWithWatch rT "k" 5 9 2000000000 noFaults stK).1 ∧
     (compareAndSwapWithEval rT "k" 5 9 2000000000 noFaults stK).2.1 =
       (compareAndSwapWithWatch rT "k" 5 9 2000000000 noFaults stK).2.1) :=
  ⟨Or.inl (by decide), cas_paths_agree rT "k" 5 9 2000000000 stK (Or.inl (by decide))⟩

/-- Commands produced by connection acquisition are never EVAL. -/
theorem getConn_no_eval (r : redisStore) (f : Faults) :
    ∀ c ∈ (getConn r f).2, isEvalCmd c = false := by
  intro c hc
  unfold getConn at hc
  split at hc
  · split at hc <;> simp at hc
    · rcases hc with h | h <;> subst h <;> rfl
    · subst hc; rfl
  · simp at hc

/-- Commands produced by connection acquisition carry no TTL. -/
theorem getConn_ttlArg (r : redisStore) (f : Faults) :
    ∀ c ∈ (getConn r f).2, ttlArg c = none := by
  intro c hc
  unfold getConn at hc
  split at hc
  · split at hc <;> simp at hc
    · rcases hc with h | h <;> subst h <;> rfl
    · subst hc; rfl
  · simp at hc

/-- The optimistic-lock path's trace is WATCH/GET, optionally followed by the
transactional commit. -/
theorem watch_trace_shape (r : redisStore) (key : String) (old new ttl : Int)
    (f : Faults) (st : RedisDB) :
    (compareAndSwapWithWatch r key old new ttl f st).2.2 =
      [RCmd.watch key, RCmd.get key] ∨
    (compareAndSwapWithWatch r key old new ttl f st).2.2 =
      [RCmd.watch key, RCmd.get key, RCmd.multi,
       if ttl > 0 then RCmd.setex key (seconds ttl) new else RCmd.set key new,
       RCmd.exec] := by
  by_cases h1 : (watchRead f st key).2 = some RErr.errNil
  · exact Or.inl (by simp [compareAndSwapWithWatch, h1])
  · by_cases h2 : (watchRead f st key).1 ≠ old
    · exact Or.inl (by simp [compareAndSwapWithWatch, h1, h2])
    · cases he : f.execErr with
      | some e => exact Or.inr (by simp [compareAndSwapWithWatch, h1, h2, he])
      | none =>
        by_cases hr : f.execRace
        · exact Or.inr (by simp [compareAndSwapWithWatch, h1, h2, he, hr])
        · exact Or.inr (by simp [compareAndSwapWithWatch, h1, h2, he, hr])

/-- The scripted path's trace is the single EVAL invocation. -/
theorem eval_trace_shape (r : redisStore) (key : String) (old new ttl : Int)
    (f : Faults) (st : RedisDB) :
    (compareAndSwapWithEval r key old new ttl f st).2.2 =
      [RCmd.eval key old new (seconds ttl)] := by
  rfl

/-- The optimistic-lock path never issues an EVAL. -/
theorem watch_no_eval (r : redisStore) (key : String) (old new ttl : Int) (f : Faults)
    (st : RedisDB) :
    ∀ c ∈ (compareAndSwapWithWatch r key old new ttl f st).2.2, isEvalCmd c = false := by
  intro c hc
  rcases watch_trace_shape r key old new ttl f st with h | h
  · rw [h] at hc
    simp at hc
    rcases hc with h1 | h1 <;> subst h1 <;> rfl
  · rw [h] at hc
    simp at hc
    rcases hc with h1 | h1 | h1 | h1 | h1
    · subst h1; rfl
    · subst h1; rfl
    · subst h1; rfl
    · subst h1
      by_cases hp : ttl > 0 <;> simp [hp, isEvalCmd]
    · subst h1; rfl

/-- Every TTL the optimistic-lock path transmits is the truncated second count. -/
theorem watch_ttlArg (r : redisStore) (key : String) (old new ttl : Int) (f : Faults)
    (st : RedisDB) :
    ∀ c ∈ (compareAndSwapWithWatch r key old new ttl f st).2.2,
      ttlArg c = none ∨ ttlArg c = some (seconds ttl) := by
  intro c hc
  rcases watch_trace_shape r key old new ttl f st with h | h
  · rw [h] at hc
    simp at hc
    rcases hc with h1 | h1 <;> subst h1 <;> exact Or.inl rfl
  · rw [h] at hc
    simp at hc
    rcases hc with h1 | h1 | h1 | h1 | h1
    · subst h1; exact Or.inl rfl
    · subst h1; exact Or.inl rfl
    · subst h1; exact Or.inl rfl
    · subst h1
      by_cases hp : ttl > 0 <;> simp [hp, ttlArg]
    · subst h1; exact Or.inl rfl

/-- Claim C3: the capability flag starts true; an unrecognized-command error
on the scripted path clears the flag and the same call falls through to the
optimistic-lock path; any other scripted-path error is returned immediately
with the flag and the backend state untouched; once the flag is false the
handle is returned unchanged and no EVAL is ever issued. -/
theorem capability_flag_latch :
    (∀ pool keyPrefix db, (NewRedisStore pool keyPrefix db).supportsEval = true) ∧
    (∀ r key old new ttl f st m, r.supportsEval = true → (getConn r f).1 = none →
      f.evalErr = some m → strContains m redisCASMissingKey = false →
      strContains m "unknown command" = true →
      ((CompareAndSwap r key old new ttl f st).2.1.supportsEval = false ∧
       (CompareAndSwap r key old new ttl f st).1 =
         watchOutcome (compareAndSwapWithWatch ⟨r.pool, r.keyPrefix, r.db, false⟩
           (r.keyPrefix ++ key) old new ttl f st).1)) ∧
    (∀ r key old new ttl f st m, r.supportsEval = true → (getConn r f).1 = none →
      f.evalErr = some m → strContains m redisCASMissingKey = false →
      strContains m "unknown command" = false →
      ((CompareAndSwap r key old new ttl f st).1 = (false, some (RErr.msg m)) ∧
       (CompareAndSwap r key old new ttl f st).2.1 = r ∧
       (CompareAndSwap r key old new ttl f st).2.2.1 = st)) ∧
    (∀ r key old new ttl f st, r.supportsEval = false →
      ((CompareAndSwap r key old new ttl f st).2.1 = r ∧
       ((CompareAndSwap r key old new ttl f st).2.2.2.all fun c => !isEvalCmd c) = true)) := by
  refine ⟨fun pool keyPrefix db => rfl, ?_, ?_, ?_⟩
  · intro r key old new ttl f st m hb hg he hm1 hm2
    simp [CompareAndSwap, compareAndSwapWithEval, hg, hb, he, hm1, hm2, errText]
  · intro r key old new ttl f st m hb hg he hm1 hm2
    simp [CompareAndSwap, compareAndSwapWithEval, hg, hb, he, hm1, hm2, errText]
  · intro r key old new ttl f st hb
    refine ⟨?_, ?_⟩
    · cases hg : (getConn r f).1 <;> simp [CompareAndSwap, hg, hb]
    · rw [List.all_eq_true]
      intro c hc
      rw [Bool.not_eq_true']
      cases hg : (getConn r f).1 with
      | some e =>
        simp [CompareAndSwap, hg] at hc
        exact getConn_no_eval r f c hc
      | none =>
        simp [CompareAndSwap, hg, hb, List.mem_append] at hc
        rcases hc with h | h | h
        · exact getConn_no_eval r f c h
        · exact watch_no_eval r (r.keyPrefix ++ key) old new ttl f st c h
        · subst h; rfl

/-- Witness for C3: a freshly constructed handle, an unrecognized-command
error falling through with the flag cleared, a transport error returned
immediately, and a flag-false handle that never issues EVAL. -/
theorem capability_flag_latch_witness :
    (NewRedisStore 0 "p" 0).supportsEval = true ∧
    ((CompareAndSwap rT "k" 5 9 0 fUC st5).2.1.supportsEval = false ∧
     (CompareAndSwap rT "k" 5 9 0 fUC st5).1 =
       watchOutcome (compareAndSwapWithWatch ⟨rT.pool, rT.keyPrefix, rT.db, false⟩
         (rT.keyPrefix ++ "k") 5 9 0 fUC st5).1) ∧
    ((CompareAndSwap rT "k" 5 9 0 fEvalIO st5).1 = (false, some (RErr.msg "i/o timeout")) ∧
     (CompareAndSwap rT "k" 5 9 0 fEvalIO st5).2.1 = rT ∧
     (CompareAndSwap rT "k" 5 9 0 fEvalIO st5).2.2.1 = st5) ∧
    ((CompareAndSwap rF "k" 5 9 0 noFaults st5).2.1 = rF ∧
     ((CompareAndSwap rF "k" 5 9 0 noFaults st5).2.2.2.all fun c => !isEvalCmd c) = true) :=
  ⟨capability_flag_latch.1 0 "p" 0,
   capability_flag_latch.2.1 rT "k" 5 9 0 fUC st5 "ERR unknown command" rfl rfl rfl
     (by decide) (by decide),
   capability_flag_latch.2.2.1 rT "k" 5 9 0 fEvalIO st5 "i/o timeout" rfl rfl rfl
     (by decide) (by decide),
   capability_flag_latch.2.2.2 rF "k" 5 9 0 noFaults st5 rfl⟩

/-- Claim C7: with `ttl` at least one second, `SetIfNotExists` issues EXPIRE
for the key after the create attempt regardless of whether this call created
the key; a failing EXPIRE is reported as an error while the returned boolean
still reflects whether the create took effect. -/
theorem setIfNotExists_expire_behaviour (r : redisStore) (key : String) (value ttl : Int)
    (f : Faults) (st : RedisDB) (ht : 1000000000 ≤ ttl) (hs : f.selectErr = none)
    (hn : f.setnxErr = none) :
    (RCmd.expire (r.keyPrefix ++ key) (seconds ttl) ∈
      (SetIfNotExists r key value ttl f st).2.2) ∧
    ((SetIfNotExists r key value ttl f st).1.1 = (st.data (r.keyPrefix ++ key)).isNone) ∧
    (∀ e, f.expireErr = some e →
      (SetIfNotExists r key value ttl f st).1 =
        ((st.data (r.keyPrefix ++ key)).isNone, some (RErr.msg e))) := by
  have hg := getConn_err_none r f hs
  cases hd : st.data (r.keyPrefix ++ key) <;>
    cases hexp : f.expireErr <;>
      simp [SetIfNotExists, hg, hn, hd, hexp, ht]

/-- Witness for C7: a created key whose EXPIRE step fails is reported created
together with the EXPIRE error. -/
theorem setIfNotExists_expire_behaviour_witness :
    (RCmd.expire "pk" 2 ∈ (SetIfNotExists rT "k" 7 2000000000 fExp st0).2.2) ∧
    ((SetIfNotExists rT "k" 7 2000000000 fExp st0).1.1 = true) ∧
    ((SetIfNotExists rT "k" 7 2000000000 fExp st0).1 =
      (true, some (RErr.msg "expire failed"))) := by
  have h := setIfNotExists_expire_behaviour rT "k" 7 2000000000 fExp st0 (by decide) rfl rfl
  exact ⟨h.1, h.2.1, h.2.2 "expire failed" rfl⟩

/-- Claim C10: when connection acquisition fails because the SELECT of the
database index fails, each operation returns the error with zero results,
leaves the backend state untouched, and its trace is exactly the SELECT
followed by closing the session. -/
theorem conn_failure_no_effect (r : redisStore) (key : String) (value old new ttl : Int)
    (f : Faults) (st : RedisDB) (e : String) (hdb : r.db > 0) (hse : f.selectErr = some e) :
    GetWithTime r key f st =
      ((0, 0, some (RErr.msg e)), st, [RCmd.select r.db, RCmd.closeConn]) ∧
    SetIfNotExists r key value ttl f st =
      ((false, some (RErr.msg e)), st, [RCmd.select r.db, RCmd.closeConn]) ∧
    CompareAndSwap r key old new ttl f st =
      ((false, some (RErr.msg e)), r, st, [RCmd.select r.db, RCmd.closeConn]) := by
  have hg : getConn r f = (some (RErr.msg e), [RCmd.select r.db, RCmd.closeConn]) := by
    unfold getConn
    rw [hse]
    simp [hdb]
  refine ⟨?_, ?_, ?_⟩ <;> simp [GetWithTime, SetIfNotExists, CompareAndSwap, hg]

/-- Witness for C10 on database index 1 with a failing SELECT. -/
theorem conn_failure_no_effect_witness :
    GetWithTime rDb1 "k" fSel st0 =
      ((0, 0, some (RErr.msg "connection refused")), st0, [RCmd.select 1, RCmd.closeConn]) ∧
    SetIfNotExists rDb1 "k" 7 0 fSel st0 =
      ((false, some (RErr.msg "connection refused")), st0, [RCmd.select 1, RCmd.closeConn]) ∧
    CompareAndSwap rDb1 "k" 5 9 0 fSel st0 =
      ((false, some (RErr.msg "connection refused")), rDb1, st0,
        [RCmd.select 1, RCmd.closeConn]) :=
  conn_failure_no_effect rDb1 "k" 7 5 9 0 fSel st0 "connection refused" (by decide) rfl

/-- Claim C4 (code bug, exhibited): in the optimistic-lock path the error from
reading the current value is compared only against the nil-reply error, so a
non-nil transport error on that read is swallowed: with the store holding
k = 5, a failing GET read and old = 7 the call returns `(false, nil)` instead
of propagating the error, and with old = 0 it even commits the write and
reports a successful swap. -/
theorem watch_read_error_swallowed :
    (CompareAndSwap rF "k" 7 9 0 fWG st5).1 = (false, none) ∧
    (CompareAndSwap rF "k" 0 9 0 fWG st5).1 = (true, none) ∧
    (CompareAndSwap rF "k" 0 9 0 fWG st5).2.2.1.data "pk" = some 9 :=
  ⟨by decide, by decide, by decide⟩

/-- Claim C9: the capability flag is the only mutable state of the handle:
`GetWithTime` and `SetIfNotExists` neither read nor write it (their results do
not depend on its value and they return no handle), and `CompareAndSwap`
preserves the pool, the key prefix and the database index. -/
theorem handle_frame :
    (∀ pool keyPrefix db b b2 key f st,
      GetWithTime ⟨pool, keyPrefix, db, b⟩ key f st =
        GetWithTime ⟨pool, keyPrefix, db, b2⟩ key f st) ∧
    (∀ pool keyPrefix db b b2 key value ttl f st,
      SetIfNotExists ⟨pool, keyPrefix, db, b⟩ key value ttl f st =
        SetIfNotExists ⟨pool, keyPrefix, db, b2⟩ key value ttl f st) ∧
    (∀ r key old new ttl f st,
      ((CompareAndSwap r key old new ttl f st).2.1.pool = r.pool ∧
       (CompareAndSwap r key old new ttl f st).2.1.keyPrefix = r.keyPrefix ∧
       (CompareAndSwap r key old new ttl f st).2.1.db = r.db)) := by
  refine ⟨fun pool keyPrefix db b b2 key f st => rfl,
          fun pool keyPrefix db b b2 key value ttl f st => rfl, ?_⟩
  intro r key old new ttl f st
  cases hg : (getConn r f).1 with
  | some e => simp [CompareAndSwap, hg]
  | none =>
    cases hb : r.supportsEval
    · simp [CompareAndSwap, hg, hb]
    · cases he : (compareAndSwapWithEval r (r.keyPrefix ++ key) old new ttl f st).1.2 with
      | none => simp [CompareAndSwap, hg, hb, he]
      | some e2 =>
        by_cases hu : strContains (errText e2) "unknown command" <;>
          simp [CompareAndSwap, hg, hb, he, hu]

/-- Claim C8: every TTL-bearing command any operation sends (EXPIRE on the
conditional-create path, the script argument of EVAL, SETEX on the
optimistic-lock path) carries exactly `seconds ttl`, the TTL truncated toward
zero to whole seconds; sub-second precision is never transmitted. -/
theorem ttl_truncated_to_seconds (r : redisStore) (key : String) (value old new ttl : Int)
    (f : Faults) (st : RedisDB) :
    (∀ c ∈ (SetIfNotExists r key value ttl f st).2.2,
      ttlArg c = none ∨ ttlArg c = some (seconds ttl)) ∧
    (∀ c ∈ (CompareAndSwap r key old new ttl f st).2.2.2,
      ttlArg c = none ∨ ttlArg c = some (seconds ttl)) := by
  constructor
  · intro c hc
    cases hg : (getConn r f).1 with
    | some e =>
      simp [SetIfNotExists, hg] at hc
      exact Or.inl (getConn_ttlArg r f c hc)
    | none =>
      cases hn : f.setnxErr with
      | some e =>
        simp [SetIfNotExists, hg, hn, List.mem_append] at hc
        rcases hc with h | h | h
        · exact Or.inl (getConn_ttlArg r f c h)
        · subst h; exact Or.inl rfl
        · subst h; exact Or.inl rfl
      | none =>
        by_cases ht : 1000000000 ≤ ttl
        · cases hexp : f.expireErr with
          | some e =>
            simp [SetIfNotExists, hg, hn, ht, hexp, List.mem_append] at hc
            rcases hc with h | h | h | h
            · exact Or.inl (getConn_ttlArg r f c h)
            · subst h; exact Or.inl rfl
            · subst h; exact Or.inr rfl
            · subst h; exact Or.inl rfl
          | none =>
            simp [SetIfNotExists, hg, hn, ht, hexp, List.mem_append] at hc
            rcases hc with h | h | h | h
            · exact Or.inl (getConn_ttlArg r f c h)
            · subst h; exact Or.inl rfl
            · subst h; exact Or.inr rfl
            · subst h; exact Or.inl rfl
        · simp [SetIfNotExists, hg, hn, ht, List.mem_append] at hc
          rcases hc with h | h | h
          · exact Or.inl (getConn_ttlArg r f c h)
          · subst h; exact Or.inl rfl
          · subst h; exact Or.inl rfl
  · intro c hc
    cases hg : (getConn r f).1 with
    | some e =>
      simp [CompareAndSwap, hg] at hc
      exact Or.inl (getConn_ttlArg r f c hc)
    | none =>
      cases hb : r.supportsEval
      · simp [CompareAndSwap, hg, hb, List.mem_append] at hc
        rcases hc with h | h | h
        · exact Or.inl (getConn_ttlArg r f c h)
        · exact watch_ttlArg r (r.keyPrefix ++ key) old new ttl f st c h
        · subst h; exact Or.inl rfl
      · cases he : (compareAndSwapWithEval r (r.keyPrefix ++ key) old new ttl f st).1.2 with
        | none =>
          simp [CompareAndSwap, hg, hb, he, List.mem_append] at hc
          rcases hc with h | h | h
          · exact Or.inl (getConn_ttlArg r f c h)
          · rw [eval_trace_shape r (r.keyPrefix ++ key) old new ttl f st] at h
            simp at h
            subst h; exact Or.inr rfl
          · subst h; exact Or.inl rfl
        | some e2 =>
          by_cases hu : strContains (errText e2) "unknown command"
          · simp [CompareAndSwap, hg, hb, he, hu, List.mem_append] at hc
            rcases hc with h | h | h | h
            · exact Or.inl (getConn_ttlArg r f c h)
            · rw [eval_trace_shape r (r.keyPrefix ++ key) old new ttl f st] at h
              simp at h
              subst h; exact Or.inr rfl
            · exact watch_ttlArg ⟨r.pool, r.keyPrefix, r.db, false⟩ (r.keyPrefix ++ key)
                old new ttl f
                (compareAndSwapWithEval r (r.keyPrefix ++ key) old new ttl f st).2.1 c h
            · subst h; exact Or.inl rfl
          · simp [CompareAndSwap, hg, hb, he, hu, List.mem_append] at hc
            rcases hc with h | h | h
            · exact Or.inl (getConn_ttlArg r f c h)
            · rw [eval_trace_shape r (r.keyPrefix ++ key) old new ttl f st] at h
              simp at h
              subst h; exact Or.inr rfl
            · subst h; exact Or.inl rfl

/-- Witness for C8: the EXPIRE sent for a 2.9-second TTL carries exactly 2
whole seconds. -/
theorem ttl_truncated_to_seconds_witness :
    (RCmd.expire "pk" 2 ∈ (SetIfNotExists rT "k" 7 2900000000 noFaults st0).2.2) ∧
    (ttlArg (RCmd.expire "pk" 2) = none ∨
      ttlArg (RCmd.expire "pk" 2) = some (seconds 2900000000)) :=
  ⟨by decide,
   (ttl_truncated_to_seconds rT "k" 7 5 9 2900000000 noFaults st0).1
     (RCmd.expire "pk" 2) (by decide)⟩
